import Mathlib

/-!
Verification of the Aadhaar Pulse frontend's data-fetching layer:
the typed API client (`src/api.ts`) and the location filter context
(`LocationProvider` in `src/pages/Enrollments.tsx`), shallowly embedded
from the TypeScript source.  JavaScript runtime values are modelled by
`JVal`; JS truthiness, optional chaining and the `||` fallback operator
are modelled explicitly so that the envelope-unwrapping chains
(`response.data?.locations || response.data || []`) keep their exact
source semantics.
-/

namespace AadhaarPulse

/-- A JavaScript runtime value, as far as the API client inspects one:
`null`, `undefined`, booleans, numbers (integral model), strings, arrays
and plain objects (association list of fields). -/
inductive JVal where
  | jnull
  | jundefined
  | jbool (b : Bool)
  | jnum (n : Int)
  | jstr (s : String)
  | jarr (xs : List JVal)
  | jobj (fields : List (String × JVal))
  deriving Repr

/-- JavaScript truthiness for the modelled values: `null`, `undefined`,
`false`, `0` and `""` are falsy; every array and object is truthy. -/
def JVal.truthy : JVal → Bool
  | .jnull => false
  | .jundefined => false
  | .jbool b => b
  | .jnum n => n != 0
  | .jstr s => s != ""
  | .jarr _ => true
  | .jobj _ => true

/-- The JS short-circuit `a || b`: `a` when truthy, otherwise `b`. -/
def jsOr (a b : JVal) : JVal := if a.truthy then a else b

/-- Optional-chained field access `v?.k`: `undefined` on `null`/`undefined`
and on every non-object; the field's value (or `undefined` if the field is
absent) on an object. -/
def JVal.getField (v : JVal) (k : String) : JVal :=
  match v with
  | .jobj fields => (fields.lookup k).getD .jundefined
  | _ => .jundefined

/-- From `src/api.ts` (`fetchHeatmapData`): the body computed for the
caller, `response.data?.locations || response.data || []`. -/
def fetchHeatmapUnwrap (r : JVal) : JVal :=
  jsOr (r.getField "locations") (jsOr r (.jarr []))

/-- From `src/api.ts` (`fetchEnrollmentTrends` and the other trend
fetchers): `response.data?.data || response.data || []`. -/
def fetchTrendsUnwrap (r : JVal) : JVal :=
  jsOr (r.getField "data") (jsOr r (.jarr []))

/-- From `src/api.ts`: `export interface LocationFilter { state?: string |
null; district?: string | null }`; an absent (`undefined`) field is
modelled as `none`, like `null`. -/
structure LocationFilter where
  state : Option String := none
  district : Option String := none
  deriving Repr, DecidableEq

/-- JS truthiness of a `string | null | undefined` value: truthy exactly
when present and non-empty. -/
def truthyStr : Option String → Bool
  | none => false
  | some s => s != ""

/-- The params contributed by a conditional spread
`...(v && { key: v })`: present exactly when `v` is a truthy string. -/
def optParam (key : String) (v : Option String) : List (String × String) :=
  match v with
  | some s => if s = "" then [] else [(key, s)]
  | none => []

/-- An HTTP request as the axios wrapper assembles it: method, path and
query parameters in insertion order. -/
structure Request where
  method : String
  path : String
  params : List (String × String)
  deriving Repr, DecidableEq

/-- From `src/api.ts` (`fetchEnrollmentSummary`): `GET
/api/enrollment/summary` with `simulation_date` always present and
`state`/`district` spread in only when truthy
(`...(filter?.state && { state: filter.state })`). -/
def fetchEnrollmentSummaryReq (simulationDate : String)
    (filter : Option LocationFilter) : Request :=
  { method := "GET"
    path := "/api/enrollment/summary"
    params := ("simulation_date", simulationDate)
      :: optParam "state" (filter.bind LocationFilter.state)
      ++ optParam "district" (filter.bind LocationFilter.district) }

/-- From `src/api.ts` (`fetchCapacityPlanning`): `GET /api/ml-v2/capacity`
with each of `state`, `district`, `period`, `level` spread in only when
truthy. -/
def fetchCapacityPlanningReq (state district period level : Option String) :
    Request :=
  { method := "GET"
    path := "/api/ml-v2/capacity"
    params := optParam "state" state ++ optParam "district" district
      ++ optParam "period" period ++ optParam "level" level }

/-- From `src/api.ts` (`fetchAnomalies`): `GET /api/anomaly/detect` with
`simulation_date` always present and only `state` (never `district`)
conditionally spread in. -/
def fetchAnomaliesReq (simulationDate : String)
    (filter : Option LocationFilter) : Request :=
  { method := "GET"
    path := "/api/anomaly/detect"
    params := ("simulation_date", simulationDate)
      :: optParam "state" (filter.bind LocationFilter.state) }

/-! ## Location Context (`LocationProvider` in `src/pages/Enrollments.tsx`) -/

/-- Whitespace test used by `trim`, `\s+` and `split`. -/
def isWsChar (c : Char) : Bool := c.isWhitespace

/-- JS `String.prototype.trim`: strip whitespace from both ends. -/
def jsTrim (s : String) : String :=
  String.mk (((s.data.dropWhile isWsChar).reverse.dropWhile isWsChar).reverse)

/-- JS `String.prototype.toLowerCase` on the ASCII range. -/
def jsToLower (s : String) : String := String.mk (s.data.map Char.toLower)

/-- JS `String.prototype.toUpperCase` on the ASCII range, one char. -/
def jsToUpperChar (c : Char) : Char := c.toUpper

/-- `replace(/\s+/g, ' ')` over a char list; the boolean records whether
the previous character belonged to a whitespace run, so every maximal
whitespace run becomes one space. -/
def collapseAux : Bool → List Char → List Char
  | _, [] => []
  | inRun, c :: cs =>
    if isWsChar c then
      if inRun then collapseAux true cs else ' ' :: collapseAux true cs
    else c :: collapseAux false cs

/-- `replace(/\s+/g, ' ')` on strings. -/
def collapseWs (s : String) : String := String.mk (collapseAux false s.data)

/-- JS `split(' ')` (split on the single space character; adjacent
separators produce empty fragments, and `"".split(' ')` is `[""]`). -/
def splitSp : List Char → List (List Char)
  | [] => [[]]
  | c :: cs =>
    if c = ' ' then [] :: splitSp cs
    else
      match splitSp cs with
      | w :: ws => (c :: w) :: ws
      | [] => [[c]]

/-- String form of `splitSp`. -/
def jsSplitSpace (s : String) : List String := (splitSp s.data).map String.mk

/-- `word.charAt(0).toUpperCase() + word.slice(1).toLowerCase()`. -/
def titleWord (w : String) : String :=
  match w.data with
  | [] => ""
  | c :: rest => String.mk (jsToUpperChar c :: rest.map Char.toLower)

/-- The title-casing fallback of the state normalizer:
`s.trim().split(' ').map(...).join(' ')`. -/
def titleCaseJs (s : String) : String :=
  String.intercalate " " ((jsSplitSpace (jsTrim s)).map titleWord)

/-- The fixed case/alias table `stateNormalization` from
`LocationProvider.fetchStates`. -/
def stateNormalization : List (String × String) :=
  [("andhra pradesh", "Andhra Pradesh"),
   ("andaman & nicobar islands", "Andaman and Nicobar Islands"),
   ("dadra & nagar haveli", "Dadra and Nagar Haveli and Daman and Diu"),
   ("dadra and nagar haveli", "Dadra and Nagar Haveli and Daman and Diu"),
   ("dadra and nagar haveli and daman and diu",
    "Dadra and Nagar Haveli and Daman and Diu"),
   ("daman & diu", "Dadra and Nagar Haveli and Daman and Diu"),
   ("daman and diu", "Dadra and Nagar Haveli and Daman and Diu"),
   ("jammu & kashmir", "Jammu and Kashmir"),
   ("odisha", "Odisha"),
   ("orissa", "Odisha"),
   ("pondicherry", "Puducherry"),
   ("west bengal", "West Bengal"),
   ("west  bengal", "West Bengal"),
   ("west bangal", "West Bengal"),
   ("westbengal", "West Bengal")]

/-- One state name through the normalizer: look the trimmed, lowercased,
whitespace-collapsed form up in the alias table, else title-case the
trimmed original (`stateNormalization[normalized] || titleCase`). -/
def normalizeState (s : String) : String :=
  match stateNormalization.lookup (collapseWs (jsToLower (jsTrim s))) with
  | some v => v
  | none => titleCaseJs s

/-- The pre-normalization filter `(s) => s && !/^\d+$/.test(s)`: keep
non-empty entries that are not made up entirely of decimal digits. -/
def keepState (s : String) : Bool := s != "" && !(s.data.all Char.isDigit)

/-- Strict lexicographic order on char lists by code unit, the order JS
`Array.prototype.sort`'s default string comparator induces. -/
def lexLt : List Char → List Char → Bool
  | [], [] => false
  | [], _ :: _ => true
  | _ :: _, [] => false
  | a :: as, b :: bs =>
    if a.toNat < b.toNat then true
    else if b.toNat < a.toNat then false
    else lexLt as bs

/-- JS default string comparison `a < b`. -/
def strLtJs (a b : String) : Bool := lexLt a.data b.data

/-- The non-strict JS string order `a ≤ b` (as `¬ b < a`), the relation
`Array.prototype.sort()` sorts by. -/
def leJs (a b : String) : Prop := strLtJs b a = false

instance : DecidableRel leJs :=
  fun a b => inferInstanceAs (Decidable (strLtJs b a = false))

/-- JS `Array.prototype.sort()` on strings: a sort by `leJs` (any correct
sort of a list by this total order yields this list). -/
def sortJs (l : List String) : List String := List.insertionSort leJs l

/-- First-occurrence deduplication relative to an already-seen list. -/
def dedupSeen : List String → List String → List String
  | [], _ => []
  | x :: xs, seen =>
    if x ∈ seen then dedupSeen xs seen else x :: dedupSeen xs (x :: seen)

/-- First-occurrence deduplication, the order `[...new Set(xs)]`
produces. -/
def dedupFirst (l : List String) : List String := dedupSeen l []

/-- The full state-list pipeline of `fetchStates`: filter, normalize,
deduplicate, sort (`[...new Set(normalizedStates)].sort()`). -/
def fetchStatesResult (raw : List String) : List String :=
  sortJs (dedupFirst ((raw.filter keepState).map normalizeState))

/-- Modelled from the spec, for comparison with `fetchStatesResult`: the
pipeline exactly as claim C6 words it — normalize each received name,
deduplicate, sort — with no filtering step. -/
def specStatesPipeline (raw : List String) : List String :=
  sortJs (dedupFirst (raw.map normalizeState))

/-- The district-list treatment of `fetchDistricts`:
`(response.data?.districts || []).sort()`. -/
def fetchDistrictsResult (raw : List String) : List String :=
  sortJs raw

/-- The state of `LocationProvider`'s six `useState` hooks. -/
structure LocState where
  selectedState : Option String
  selectedDistrict : Option String
  states : List String
  districts : List String
  isLoadingStates : Bool
  isLoadingDistricts : Bool
  deriving Repr, DecidableEq

/-- The provider's initial hook values: nothing selected, empty lists,
`isLoadingStates = true`, `isLoadingDistricts = false`. -/
def initLoc : LocState :=
  { selectedState := none, selectedDistrict := none, states := [],
    districts := [], isLoadingStates := true, isLoadingDistricts := false }

/-- The mount-time states fetch settling: on success (`some raw`) the
normalized list replaces `states`; on failure (`none`) only
`console.error` runs, so `states` is untouched; either way the `finally`
clears `isLoadingStates`.  The second component counts network requests
issued (always the one initial request — no retry). -/
def statesEffectOp (outcome : Option (List String)) (s : LocState) :
    LocState × Nat :=
  match outcome with
  | some raw => ({ s with states := fetchStatesResult raw, isLoadingStates := false }, 1)
  | none => ({ s with isLoadingStates := false }, 1)

/-- `setSelectedState v` together with the `[selectedState]` effect.  If
`v` equals the current value React bails out and the effect's dependency
is unchanged, so nothing happens.  Otherwise the effect runs, and its
guard is the JS truthiness test `if (!selectedState)`: for a falsy new
value (`null` or the empty string) it clears `districts`, makes no
request and returns before touching the loading flag; for a truthy
`v = some st` it issues exactly one district-list request for `st`
(`outcome` is its settling: sorted list on success, `[]` on failure,
`finally` clears the flag).  In every branch `setSelectedDistrict(null)`
runs.  The second component lists the states a district fetch was issued
for. -/
def setStateOp (v : Option String) (outcome : Option (List String))
    (s : LocState) : LocState × List String :=
  if v = s.selectedState then (s, [])
  else
    match v with
    | none =>
      ({ s with selectedState := none, selectedDistrict := none,
                districts := [] }, [])
    | some st =>
      if st = "" then
        ({ s with selectedState := some st, selectedDistrict := none,
                  districts := [] }, [])
      else
        ({ s with selectedState := some st, selectedDistrict := none,
                  districts := match outcome with
                    | some raw => fetchDistrictsResult raw
                    | none => [],
                  isLoadingDistricts := false }, [st])

/-- `setSelectedDistrict v`: sets only `selectedDistrict`; the district
effect does not re-run because its dependency `selectedState` is
unchanged. -/
def setDistrictOp (v : Option String) (s : LocState) : LocState :=
  { s with selectedDistrict := v }

/-- The provider states reachable through the exposed setters and the
fetch settlements, from the initial hook values. -/
inductive ReachableLoc : LocState → Prop where
  | init : ReachableLoc initLoc
  | statesFetch {s} (outcome : Option (List String)) :
      ReachableLoc s → ReachableLoc (statesEffectOp outcome s).1
  | setState {s} (v : Option String) (outcome : Option (List String)) :
      ReachableLoc s → ReachableLoc (setStateOp v outcome s).1
  | setDistrict {s} (v : Option String) :
      ReachableLoc s → ReachableLoc (setDistrictOp v s)

/-- Reachability when `setSelectedDistrict` is only ever called with a
non-null district while a state is selected — the discipline the
`LocationSelector` UI enforces by hiding the district dropdown until a
state is chosen. -/
inductive GuardedReach : LocState → Prop where
  | init : GuardedReach initLoc
  | statesFetch {s} (outcome : Option (List String)) :
      GuardedReach s → GuardedReach (statesEffectOp outcome s).1
  | setState {s} (v : Option String) (outcome : Option (List String)) :
      GuardedReach s → GuardedReach (setStateOp v outcome s).1
  | setDistrict {s} (v : Option String) :
      GuardedReach s → (v = none ∨ s.selectedState ≠ none) →
      GuardedReach (setDistrictOp v s)

/-- JS string interpolation of a `string | null` value: `null` renders as
`"null"`. -/
def jsShow : Option String → String
  | none => "null"
  | some s => s

/-- The derived label: `selectedDistrict ?
`${selectedDistrict}, ${selectedState}` : selectedState ? selectedState :
'All India'`. -/
def locationLabel (st di : Option String) : String :=
  if truthyStr di then jsShow di ++ ", " ++ jsShow st
  else if truthyStr st then jsShow st
  else "All India"

/-! ## Query cache deduplication

Modelled from the spec: the Query Cache Layer is the
`@tanstack/react-query` dependency, whose implementation is not part of
this repository; only its call sites (the `useQuery` keys) are.  The
deduplication contract is modelled from the spec's words: "if two
components request the same key concurrently while a fetch is in flight,
only one network call is issued; both callers receive the same resolved
result." -/

/-- A query key as the pages build them: a list of components, each a
string or `null` (e.g. `['capacity-planning', selectedState,
selectedDistrict, selectedPeriod, level]`).  Key equality is structural
(decidable) equality of the component lists. -/
abbrev QueryKey : Type := List (Option String)

/-- Modelled from the spec: the cache's in-flight table (key to the
subscribers awaiting it) and a count of network calls issued. -/
structure CacheState where
  inFlight : List (QueryKey × List Nat)
  networkCalls : Nat

/-- Append a subscriber to an existing in-flight entry. -/
def addSub (k : QueryKey) (sub : Nat) :
    List (QueryKey × List Nat) → List (QueryKey × List Nat)
  | [] => []
  | (k', subs) :: rest =>
    if k' = k then (k', subs ++ [sub]) :: rest
    else (k', subs) :: addSub k sub rest

/-- Modelled from the spec: a component subscribing to key `k`.  If a
fetch for a structurally equal key is in flight the subscriber joins it;
otherwise a new network call is issued. -/
def subscribe (k : QueryKey) (sub : Nat) (c : CacheState) : CacheState :=
  match c.inFlight.lookup k with
  | some _ => { c with inFlight := addSub k sub c.inFlight }
  | none =>
    { inFlight := (k, [sub]) :: c.inFlight,
      networkCalls := c.networkCalls + 1 }

/-- Modelled from the spec: the fetch for `k` resolving with value `v`;
every subscriber of `k` observes that same value.  Returns the new cache
state and the list of (subscriber, observed value) deliveries. -/
def resolve (k : QueryKey) (v : JVal) (c : CacheState) :
    CacheState × List (Nat × JVal) :=
  (({ c with inFlight := c.inFlight.filter (fun e => e.1 != k) }),
   (((c.inFlight.lookup k).getD []).map (fun sub => (sub, v))))

/-! ## Order and deduplication lemmas -/

theorem lexLt_asymm : ∀ l₁ l₂, lexLt l₁ l₂ = true → lexLt l₂ l₁ = false := by
  intro l₁
  induction l₁ with
  | nil =>
    intro l₂ h
    cases l₂ with
    | nil => simp [lexLt] at h
    | cons b bs => simp [lexLt]
  | cons a as ih =>
    intro l₂ h
    cases l₂ with
    | nil => simp [lexLt] at h
    | cons b bs =>
      simp only [lexLt] at h ⊢
      by_cases hab : a.toNat < b.toNat
      · have hba : ¬ b.toNat < a.toNat := by omega
        simp [hab, hba]
      · by_cases hba : b.toNat < a.toNat
        · simp [hab, hba] at h
        · simp only [if_neg hab, if_neg hba] at h
          simp [hab, hba, ih bs h]

theorem lexLt_connex :
    ∀ l₁ l₂, lexLt l₁ l₂ = false → lexLt l₂ l₁ = false → l₁ = l₂ := by
  intro l₁
  induction l₁ with
  | nil =>
    intro l₂ h₁ _
    cases l₂ with
    | nil => rfl
    | cons b bs => simp [lexLt] at h₁
  | cons a as ih =>
    intro l₂ h₁ h₂
    cases l₂ with
    | nil => simp [lexLt] at h₂
    | cons b bs =>
      simp only [lexLt] at h₁ h₂
      by_cases hab : a.toNat < b.toNat
      · simp [hab] at h₁
      · by_cases hba : b.toNat < a.toNat
        · simp [hab, hba] at h₂
        · simp only [if_neg hab, if_neg hba] at h₁ h₂
          have h3 : a.toNat = b.toNat := by omega
          have hc : a = b := Char.eq_of_val_eq (UInt32.ext h3)
          rw [hc, ih bs h₁ h₂]

theorem lexLt_trans :
    ∀ l₁ l₂ l₃, lexLt l₁ l₂ = true → lexLt l₂ l₃ = true → lexLt l₁ l₃ = true := by
  intro l₁
  induction l₁ with
  | nil =>
    intro l₂ l₃ h₁ h₂
    cases l₂ with
    | nil => simp [lexLt] at h₁
    | cons b bs =>
      cases l₃ with
      | nil => simp [lexLt] at h₂
      | cons c cs => simp [lexLt]
  | cons a as ih =>
    intro l₂ l₃ h₁ h₂
    cases l₂ with
    | nil => simp [lexLt] at h₁
    | cons b bs =>
      cases l₃ with
      | nil => simp [lexLt] at h₂
      | cons c cs =>
        simp only [lexLt] at h₁ h₂ ⊢
        by_cases hab : a.toNat < b.toNat
        · by_cases hbc : b.toNat < c.toNat
          · simp [show a.toNat < c.toNat by omega]
          · by_cases hcb : c.toNat < b.toNat
            · simp [hbc, hcb] at h₂
            · have : a.toNat < c.toNat := by omega
              simp [this]
        · by_cases hba : b.toNat < a.toNat
          · simp [hab, hba] at h₁
          · simp only [if_neg hab, if_neg hba] at h₁
            by_cases hbc : b.toNat < c.toNat
            · have hac : a.toNat < c.toNat := by omega
              simp [hac]
            · by_cases hcb : c.toNat < b.toNat
              · simp [hbc, hcb] at h₂
              · simp only [if_neg hbc, if_neg hcb] at h₂
                have hac : ¬ a.toNat < c.toNat := by omega
                have hca : ¬ c.toNat < a.toNat := by omega
                simp [hac, hca, ih bs cs h₁ h₂]

instance : IsTotal String leJs := by
  constructor
  intro a b
  by_cases h : lexLt b.data a.data = false
  · exact Or.inl h
  · right
    exact lexLt_asymm b.data a.data (by
      cases hv : lexLt b.data a.data
      · exact absurd hv h
      · rfl)

instance : IsTrans String leJs := by
  constructor
  intro a b c hab hbc
  unfold leJs strLtJs at *
  cases hca : lexLt c.data a.data
  · rfl
  · exfalso
    cases hba : lexLt a.data b.data
    · have hdata : a.data = b.data := lexLt_connex a.data b.data hba hab
      rw [hdata] at hca
      rw [hca] at hbc
      exact Bool.noConfusion hbc
    · have := lexLt_trans c.data a.data b.data hca hba
      rw [this] at hbc
      exact Bool.noConfusion hbc

theorem sortJs_sorted (l : List String) : (sortJs l).Sorted leJs :=
  List.sorted_insertionSort leJs l

theorem sortJs_perm (l : List String) : List.Perm (sortJs l) l :=
  List.perm_insertionSort leJs l

theorem mem_dedupSeen :
    ∀ (l seen : List String) (a : String),
      a ∈ dedupSeen l seen ↔ a ∈ l ∧ a ∉ seen := by
  intro l
  induction l with
  | nil => simp [dedupSeen]
  | cons x xs ih =>
    intro seen a
    by_cases hx : x ∈ seen
    · rw [dedupSeen, if_pos hx, ih]
      simp only [List.mem_cons]
      constructor
      · rintro ⟨h1, h2⟩
        exact ⟨Or.inr h1, h2⟩
      · rintro ⟨rfl | h1, h2⟩
        · exact absurd hx h2
        · exact ⟨h1, h2⟩
    · rw [dedupSeen, if_neg hx]
      simp only [List.mem_cons, ih, List.mem_cons]
      constructor
      · rintro (rfl | ⟨h1, h2⟩)
        · exact ⟨Or.inl rfl, hx⟩
        · push_neg at h2
          exact ⟨Or.inr h1, h2.2⟩
      · rintro ⟨rfl | h1, h2⟩
        · exact Or.inl rfl
        · by_cases hax : a = x
          · exact Or.inl hax
          · right
            refine ⟨h1, ?_⟩
            push_neg
            exact ⟨hax, h2⟩

theorem nodup_dedupSeen : ∀ (l seen : List String), (dedupSeen l seen).Nodup := by
  intro l
  induction l with
  | nil => intro seen; simp [dedupSeen]
  | cons x xs ih =>
    intro seen
    by_cases hx : x ∈ seen
    · rw [dedupSeen, if_pos hx]
      exact ih seen
    · rw [dedupSeen, if_neg hx, List.nodup_cons]
      refine ⟨fun hmem => ?_, ih _⟩
      exact ((mem_dedupSeen _ _ _).1 hmem).2 (List.mem_cons_self x seen)

theorem mem_dedupFirst (l : List String) (a : String) :
    a ∈ dedupFirst l ↔ a ∈ l := by
  simp [dedupFirst, mem_dedupSeen]

theorem nodup_dedupFirst (l : List String) : (dedupFirst l).Nodup :=
  nodup_dedupSeen l []

theorem mem_fetchStatesResult (raw : List String) (x : String) :
    x ∈ fetchStatesResult raw ↔
      ∃ s, s ∈ raw ∧ keepState s = true ∧ normalizeState s = x := by
  rw [fetchStatesResult, (sortJs_perm _).mem_iff, mem_dedupFirst]
  simp only [List.mem_map, List.mem_filter]
  constructor
  · rintro ⟨s, ⟨hs, hk⟩, hn⟩
    exact ⟨s, hs, hk, hn⟩
  · rintro ⟨s, hs, hk, hn⟩
    exact ⟨s, ⟨hs, hk⟩, hn⟩

theorem sorted_fetchStatesResult (raw : List String) :
    (fetchStatesResult raw).Sorted leJs :=
  sortJs_sorted _

theorem nodup_fetchStatesResult (raw : List String) :
    (fetchStatesResult raw).Nodup :=
  ((sortJs_perm _).nodup_iff).2 (nodup_dedupFirst _)

theorem mem_optParam (k key : String) (v : Option String) (s : String) :
    (k, s) ∈ optParam key v ↔ k = key ∧ v = some s ∧ s ≠ "" := by
  cases v with
  | none => simp [optParam]
  | some t =>
    by_cases ht : t = ""
    · subst ht
      constructor
      · intro h
        simp [optParam] at h
      · rintro ⟨-, h, hne⟩
        exact absurd (Option.some.inj h).symm hne
    · simp only [optParam, if_neg ht, List.mem_singleton, Prod.mk.injEq,
        Option.some.injEq]
      constructor
      · rintro ⟨rfl, rfl⟩
        exact ⟨rfl, rfl, ht⟩
      · rintro ⟨rfl, rfl, _⟩
        exact ⟨rfl, rfl⟩

/-! ## Claim theorems -/

/-- C1 (counterexample): the claim says a response body that is neither an
array nor an object with a `locations` field — "e.g. null, undefined, or
an object without `locations`" — yields `[]`.  But the fallback chain is
by JS truthiness: an object without `locations` is truthy, so
`fetchHeatmapData` returns the object itself, not `[]`. -/
theorem heatmap_object_without_locations_cex :
    fetchHeatmapUnwrap (.jobj [("count", .jnum 0)]) = .jobj [("count", .jnum 0)] ∧
    JVal.jobj [("count", JVal.jnum 0)] ≠ JVal.jarr [] :=
  ⟨rfl, fun h => JVal.noConfusion h⟩

/-- C1 (amended): `fetchHeatmapData` computes
`response.data?.locations || response.data || []`: a truthy `locations`
field (in particular any array) is returned; otherwise a truthy body (a
bare array, or any other truthy value such as an object without
`locations`) is returned unchanged; only a falsy body (`null`,
`undefined`, `0`, `""`, `false`) yields `[]`. -/
theorem fetchHeatmapData_fallback_chain :
    (∀ r : JVal, (r.getField "locations").truthy = true →
        fetchHeatmapUnwrap r = r.getField "locations") ∧
    (∀ r : JVal, (r.getField "locations").truthy = false → r.truthy = true →
        fetchHeatmapUnwrap r = r) ∧
    (∀ r : JVal, (r.getField "locations").truthy = false → r.truthy = false →
        fetchHeatmapUnwrap r = .jarr []) ∧
    (∀ xs : List JVal, fetchHeatmapUnwrap (.jarr xs) = .jarr xs) ∧
    (∀ (fields : List (String × JVal)) (xs : List JVal),
        fields.lookup "locations" = some (.jarr xs) →
        fetchHeatmapUnwrap (.jobj fields) = .jarr xs) ∧
    fetchHeatmapUnwrap .jnull = .jarr [] ∧
    fetchHeatmapUnwrap .jundefined = .jarr [] := by
  refine ⟨?_, ?_, ?_, ?_, ?_, rfl, rfl⟩
  · intro r h
    simp [fetchHeatmapUnwrap, jsOr, h]
  · intro r h1 h2
    simp [fetchHeatmapUnwrap, jsOr, h1, h2]
  · intro r h1 h2
    simp [fetchHeatmapUnwrap, jsOr, h1, h2]
  · intro xs
    rfl
  · intro fields xs h
    simp [fetchHeatmapUnwrap, JVal.getField, h, jsOr, JVal.truthy]

/-- C1 witness: the fallback chain applied to `{ locations: [1] }`. -/
theorem fetchHeatmapData_fallback_chain_witness :
    fetchHeatmapUnwrap (.jobj [("locations", .jarr [.jnum 1])]) = .jarr [.jnum 1] :=
  fetchHeatmapData_fallback_chain.2.2.2.2.1 [("locations", .jarr [.jnum 1])]
    [.jnum 1] rfl

/-- C2 (confirmed): the filtered GET functions include `state` and
`district` only for a non-null, non-empty filter field — an absent, null
or empty field is omitted from the params entirely — and
`{state: "Odisha", district: null}` yields exactly
`simulation_date` and `state=Odisha` with no `district` key. -/
theorem filtered_get_params_truthiness :
    (∀ (d : String) (f : Option LocationFilter) (s : String),
        ("state", s) ∈ (fetchEnrollmentSummaryReq d f).params ↔
          f.bind LocationFilter.state = some s ∧ s ≠ "") ∧
    (∀ (d : String) (f : Option LocationFilter) (s : String),
        ("district", s) ∈ (fetchEnrollmentSummaryReq d f).params ↔
          f.bind LocationFilter.district = some s ∧ s ≠ "") ∧
    (∀ (d : String) (f : Option LocationFilter),
        ("simulation_date", d) ∈ (fetchEnrollmentSummaryReq d f).params) ∧
    (∀ d : String,
        (fetchEnrollmentSummaryReq d
          (some { state := some "Odisha", district := none })).params =
          [("simulation_date", d), ("state", "Odisha")]) ∧
    (∀ (st di pe le : Option String) (s : String),
        ("state", s) ∈ (fetchCapacityPlanningReq st di pe le).params ↔
          st = some s ∧ s ≠ "") ∧
    (∀ (st di pe le : Option String) (s : String),
        ("district", s) ∈ (fetchCapacityPlanningReq st di pe le).params ↔
          di = some s ∧ s ≠ "") := by
  refine ⟨?_, ?_, ?_, ?_, ?_, ?_⟩
  · intro d f s
    simp [fetchEnrollmentSummaryReq, mem_optParam]
  · intro d f s
    simp [fetchEnrollmentSummaryReq, mem_optParam]
  · intro d f
    simp [fetchEnrollmentSummaryReq]
  · intro d
    rfl
  · intro st di pe le s
    simp [fetchCapacityPlanningReq, mem_optParam]
  · intro st di pe le s
    simp [fetchCapacityPlanningReq, mem_optParam]

/-- C2 witness: `{state: "Odisha", district: null}` produces a `state`
param and no `district` param. -/
theorem filtered_get_params_truthiness_witness :
    ("state", "Odisha") ∈ (fetchEnrollmentSummaryReq "2025-12-15"
      (some { state := some "Odisha", district := none })).params ∧
    ¬ ("district", "Cuttack") ∈ (fetchEnrollmentSummaryReq "2025-12-15"
      (some { state := some "Odisha", district := none })).params :=
  ⟨(filtered_get_params_truthiness.1 "2025-12-15"
      (some { state := some "Odisha", district := none }) "Odisha").mpr
      ⟨rfl, by decide⟩,
   fun h => by
    have := (filtered_get_params_truthiness.2.1 "2025-12-15"
      (some { state := some "Odisha", district := none }) "Cuttack").mp h
    exact Option.noConfusion this.1⟩

/-- C9 (confirmed): `fetchAnomalies` issues `GET /api/anomaly/detect`
whose params always contain `simulation_date`, contain `state` exactly
when the filter's state is non-null and non-empty, and never contain a
`district` param, whatever `filter.district` is. -/
theorem fetchAnomalies_params_spec :
    (∀ (d : String) (f : Option LocationFilter),
        (fetchAnomaliesReq d f).method = "GET" ∧
        (fetchAnomaliesReq d f).path = "/api/anomaly/detect") ∧
    (∀ (d : String) (f : Option LocationFilter),
        ("simulation_date", d) ∈ (fetchAnomaliesReq d f).params) ∧
    (∀ (d : String) (f : Option LocationFilter) (v : String),
        ("district", v) ∉ (fetchAnomaliesReq d f).params) ∧
    (∀ (d : String) (f : Option LocationFilter) (s : String),
        ("state", s) ∈ (fetchAnomaliesReq d f).params ↔
          f.bind LocationFilter.state = some s ∧ s ≠ "") := by
  refine ⟨fun d f => ⟨rfl, rfl⟩, ?_, ?_, ?_⟩
  · intro d f
    simp [fetchAnomaliesReq]
  · intro d f v
    simp [fetchAnomaliesReq, mem_optParam]
  · intro d f s
    simp [fetchAnomaliesReq, mem_optParam]

/-- C9 witness: with `{state: "Odisha", district: "Cuttack"}` the anomaly
request carries `state` and no `district`. -/
theorem fetchAnomalies_params_spec_witness :
    ("state", "Odisha") ∈ (fetchAnomaliesReq "2025-12-15"
      (some { state := some "Odisha", district := some "Cuttack" })).params ∧
    ("district", "Cuttack") ∉ (fetchAnomaliesReq "2025-12-15"
      (some { state := some "Odisha", district := some "Cuttack" })).params :=
  ⟨(fetchAnomalies_params_spec.2.2.2 "2025-12-15"
      (some { state := some "Odisha", district := some "Cuttack" }) "Odisha").mpr
      ⟨rfl, by decide⟩,
   fetchAnomalies_params_spec.2.2.1 "2025-12-15"
      (some { state := some "Odisha", district := some "Cuttack" }) "Cuttack"⟩

/-- C3 (counterexample): the claim fails at two values of `v`.  First,
the non-null empty string: the district effect's guard is the JS
truthiness test `if (!selectedState)`, so `setSelectedState("")` (live
via the map's deselect, `onStateClick('')`) clears `districts` and
issues *no* district-list fetch, though the claim demands exactly one
fetch for every non-null `v`.  Second, the current value: the
`[selectedState]` effect dependency is unchanged, so nothing happens —
`selectedDistrict` keeps its old value (here `"Cuttack"`) and no fetch
is issued. -/
theorem setState_claim_cex :
    (setStateOp (some "") none
      ((setStateOp (some "Odisha") (some ["Cuttack", "Puri"]) initLoc).1)).2 = [] ∧
    (setStateOp (some "") none
      ((setStateOp (some "Odisha") (some ["Cuttack", "Puri"]) initLoc).1)).1.districts = [] ∧
    (setStateOp (some "Odisha") none
      (setDistrictOp (some "Cuttack")
        ((setStateOp (some "Odisha") (some ["Cuttack", "Puri"]) initLoc).1))).1.selectedDistrict
      = some "Cuttack" ∧
    (setStateOp (some "Odisha") none
      (setDistrictOp (some "Cuttack")
        ((setStateOp (some "Odisha") (some ["Cuttack", "Puri"]) initLoc).1))).2 = [] := by
  decide

/-- C3 (amended): setting `selectedState` to any value `v` *different
from the current one* clears `selectedDistrict` to null and stores `v`;
for a truthy `v = some st` (`st ≠ ""`) exactly one district-list fetch
for `st` is issued and its settling replaces `districts` (sorted list on
success, `[]` on failure); for a falsy `v` (null or the empty string,
the `if (!selectedState)` guard) `districts` is cleared with no request.
Setting the current value again is a no-op. -/
theorem setSelectedState_effects (v : Option String)
    (out : Option (List String)) (s : LocState) (hv : v ≠ s.selectedState) :
    (setStateOp v out s).1.selectedDistrict = none ∧
    (setStateOp v out s).1.selectedState = v ∧
    (∀ st, v = some st → st ≠ "" → (setStateOp v out s).2 = [st] ∧
        (setStateOp v out s).1.districts =
          (match out with
           | some raw => fetchDistrictsResult raw
           | none => [])) ∧
    (truthyStr v = false → (setStateOp v out s).2 = [] ∧
        (setStateOp v out s).1.districts = []) := by
  cases v with
  | none =>
    simp only [setStateOp, if_neg hv]
    simp [truthyStr]
  | some st =>
    by_cases hst : st = ""
    · subst hst
      simp only [setStateOp, if_neg hv, if_true]
      refine ⟨by trivial, by trivial, ?_, ?_⟩
      · rintro st' h
        cases h
        intro hne
        exact absurd rfl hne
      · intro _
        exact ⟨by trivial, by trivial⟩
    · simp only [setStateOp, if_neg hv]
      rw [if_neg hst]
      refine ⟨rfl, rfl, ?_, ?_⟩
      · rintro st' h
        cases h
        intro _
        exact ⟨rfl, rfl⟩
      · intro h
        simp only [truthyStr, bne_eq_false_iff_eq] at h
        exact absurd h hst

/-- C3 witness: a fresh selection of `"Odisha"` clears the district and
issues exactly one fetch for `"Odisha"`. -/
theorem setSelectedState_effects_witness :
    (setStateOp (some "Odisha") (some ["Puri"]) initLoc).1.selectedDistrict = none ∧
    (setStateOp (some "Odisha") (some ["Puri"]) initLoc).2 = ["Odisha"] :=
  ⟨(setSelectedState_effects (some "Odisha") (some ["Puri"]) initLoc
      (by decide)).1,
   ((setSelectedState_effects (some "Odisha") (some ["Puri"]) initLoc
      (by decide)).2.2.1 "Odisha" rfl (by decide)).1⟩

/-- C4 (counterexample): from the initial `{null, null}` state, one call
to the exposed `setSelectedDistrict` with a non-null value reaches a state
with `selectedDistrict` non-null and `selectedState` still null — the
setter is unguarded, so the claimed invariant fails. -/
theorem district_without_state_reachable_cex :
    ReachableLoc (setDistrictOp (some "Cuttack") initLoc) ∧
    (setDistrictOp (some "Cuttack") initLoc).selectedDistrict = some "Cuttack" ∧
    (setDistrictOp (some "Cuttack") initLoc).selectedState = none :=
  ⟨ReachableLoc.setDistrict (some "Cuttack") ReachableLoc.init, rfl, rfl⟩

/-- C4 (amended): the invariant `selectedDistrict ≠ null →
selectedState ≠ null` holds of every state reachable when
`setSelectedDistrict` is only called with a non-null value while a state
is selected — the discipline the UI enforces by hiding the district
selector until a state is chosen (`setSelectedState` itself always clears
the district, so it can never break the invariant). -/
theorem guarded_district_implies_state (s : LocState) (h : GuardedReach s)
    (hd : s.selectedDistrict ≠ none) : s.selectedState ≠ none := by
  induction h with
  | init => exact absurd rfl hd
  | statesFetch out hs ih =>
    rename_i s'
    cases out with
    | some raw =>
      simp only [statesEffectOp] at hd ⊢
      exact ih hd
    | none =>
      simp only [statesEffectOp] at hd ⊢
      exact ih hd
  | setState v out hs ih =>
    rename_i s'
    by_cases hv : v = s'.selectedState
    · simp only [setStateOp, if_pos hv] at hd ⊢
      exact ih hd
    · cases v with
      | none =>
        simp only [setStateOp, if_neg hv] at hd
        exact absurd rfl hd
      | some st =>
        intro hc
        have hsel : (setStateOp (some st) out s').1.selectedState = some st := by
          simp only [setStateOp, if_neg hv]
          by_cases hst : st = ""
          · rw [if_pos hst]
          · rw [if_neg hst]
        rw [hsel] at hc
        exact Option.noConfusion hc
  | setDistrict v hs hguard ih =>
    rename_i s'
    simp only [setDistrictOp] at hd ⊢
    rcases hguard with rfl | hst
    · exact absurd rfl hd
    · exact hst

/-- C4 witness: selecting a state and then a district under the guarded
discipline leaves a non-null state. -/
theorem guarded_district_implies_state_witness :
    (setDistrictOp (some "Cuttack")
      ((setStateOp (some "Odisha") (some ["Cuttack"]) initLoc).1)).selectedState ≠ none :=
  guarded_district_implies_state _
    (GuardedReach.setDistrict (some "Cuttack")
      (GuardedReach.setState (some "Odisha") (some ["Cuttack"]) GuardedReach.init)
      (Or.inr (by decide)))
    (by decide)

/-- C8 (confirmed): a failing state-list fetch (the mount-time request)
leaves `states` empty and clears `isLoadingStates`, having issued exactly
the one original request (no retry); a failing district-list fetch sets
`districts` to `[]`, clears `isLoadingDistricts`, and the issued-request
list is exactly the one fetch for the selected state.  A district fetch
is only ever issued for a truthy (non-empty) selected state — the
`if (!selectedState)` guard returns first otherwise — so the
district-failure part is stated for those.  Both handlers are total
functions — no exception escapes the provider. -/
theorem fetch_failure_handling :
    ((statesEffectOp none initLoc).1.states = [] ∧
     (statesEffectOp none initLoc).1.isLoadingStates = false ∧
     (statesEffectOp none initLoc).2 = 1) ∧
    (∀ (st : String) (s : LocState), st ≠ "" → some st ≠ s.selectedState →
        (setStateOp (some st) none s).1.districts = [] ∧
        (setStateOp (some st) none s).1.isLoadingDistricts = false ∧
        (setStateOp (some st) none s).2 = [st]) := by
  refine ⟨⟨rfl, rfl, rfl⟩, ?_⟩
  intro st s hst h
  simp only [setStateOp, if_neg h]
  rw [if_neg hst]
  exact ⟨rfl, rfl, rfl⟩

/-- C8 witness: the failure handling at the initial state. -/
theorem fetch_failure_handling_witness :
    (setStateOp (some "Odisha") none initLoc).1.districts = [] ∧
    (setStateOp (some "Odisha") none initLoc).1.isLoadingDistricts = false ∧
    (setStateOp (some "Odisha") none initLoc).2 = ["Odisha"] :=
  fetch_failure_handling.2 "Odisha" initLoc (by decide) (by decide)

/-- C5 (confirmed, spec-modelled): two subscribers requesting a
structurally identical key while the fetch is in flight cause exactly one
network call, and on resolution both observe the same value. -/
theorem query_dedup_inflight (k : QueryKey) (a b : Nat) (v : JVal) :
    (subscribe k b (subscribe k a ⟨[], 0⟩)).networkCalls = 1 ∧
    (resolve k v (subscribe k b (subscribe k a ⟨[], 0⟩))).2 = [(a, v), (b, v)] := by
  have hself : (k == k) = true := beq_self_eq_true k
  constructor
  · simp [subscribe, List.lookup, hself, addSub]
  · simp [subscribe, resolve, List.lookup, hself, addSub]

/-- C5 witness: the deduplication at the concrete key
`['enrollment-trends', '2025-12-15']`. -/
theorem query_dedup_inflight_witness :
    (subscribe [some "enrollment-trends", some "2025-12-15"] 1
      (subscribe [some "enrollment-trends", some "2025-12-15"] 0
        ⟨[], 0⟩)).networkCalls = 1 :=
  (query_dedup_inflight [some "enrollment-trends", some "2025-12-15"] 0 1
    .jnull).1

/-- C6 (counterexample): the claim describes `states[]` as obtained by
normalizing *each* received name, deduplicating and sorting; but the code
first discards falsy and purely-numeric entries, so on the raw list
`["123"]` the code produces `[]` while the claimed pipeline produces
`["123"]`. -/
theorem states_pipeline_numeric_cex :
    fetchStatesResult ["123"] = [] ∧
    specStatesPipeline ["123"] = ["123"] ∧
    fetchStatesResult ["123"] ≠ specStatesPipeline ["123"] := by
  decide

/-- C6 (amended): after discarding falsy or purely-numeric entries, the
exposed `states[]` is the kept names normalized through the fixed alias
table (title-cased when not in the table), deduplicated and sorted
lexicographically: the result is sorted, duplicate-free, and contains
exactly the normalizations of the kept raw entries; `"Orissa"` (any
casing) normalizes to `"Odisha"`. -/
theorem fetchStates_normalization (raw : List String) :
    (fetchStatesResult raw).Sorted leJs ∧
    (fetchStatesResult raw).Nodup ∧
    (∀ x, x ∈ fetchStatesResult raw ↔
        ∃ s, s ∈ raw ∧ keepState s = true ∧ normalizeState s = x) ∧
    ("Orissa" ∈ raw → "Odisha" ∈ fetchStatesResult raw) ∧
    (∀ s, stateNormalization.lookup (collapseWs (jsToLower (jsTrim s))) = none →
        normalizeState s = titleCaseJs s) ∧
    normalizeState "Orissa" = "Odisha" ∧
    normalizeState "ORISSA" = "Odisha" ∧
    fetchStatesResult ["Orissa", "Kerala", "orissa"] = ["Kerala", "Odisha"] := by
  refine ⟨sorted_fetchStatesResult raw, nodup_fetchStatesResult raw,
    mem_fetchStatesResult raw, ?_, ?_, by decide, by decide, by decide⟩
  · intro hmem
    exact (mem_fetchStatesResult raw "Odisha").mpr
      ⟨"Orissa", hmem, by decide, by decide⟩
  · intro s h
    simp [normalizeState, h]

/-- C6 witness: the normalization at the concrete raw list `["Orissa"]`. -/
theorem fetchStates_normalization_witness :
    "Odisha" ∈ fetchStatesResult ["Orissa"] :=
  (fetchStates_normalization ["Orissa"]).2.2.2.1 (by decide)

/-- C7 (counterexample): the claim says a non-null `selectedDistrict`
yields `"${district}, ${state}"`, but the label is computed by JS
truthiness: with the non-null empty district `""` the code falls through
to the state branch and yields `"Odisha"`, not `", Odisha"`. -/
theorem locationLabel_empty_district_cex :
    locationLabel (some "Odisha") (some "") = "Odisha" ∧
    locationLabel (some "Odisha") (some "") ≠ ", Odisha" := by
  decide

/-- C7 (amended): `locationLabel` is `"${district}, ${state}"` when
`selectedDistrict` is truthy (non-null *and* non-empty), else
`selectedState` when that is truthy, else `"All India"`. -/
theorem locationLabel_spec :
    (∀ st di : Option String, truthyStr di = true →
        locationLabel st di = jsShow di ++ ", " ++ jsShow st) ∧
    (∀ st di : Option String, truthyStr di = false → truthyStr st = true →
        locationLabel st di = jsShow st) ∧
    (∀ st di : Option String, truthyStr di = false → truthyStr st = false →
        locationLabel st di = "All India") ∧
    locationLabel (some "Odisha") (some "Cuttack") = "Cuttack, Odisha" ∧
    locationLabel (some "Odisha") none = "Odisha" ∧
    locationLabel none none = "All India" := by
  refine ⟨?_, ?_, ?_, by decide, by decide, by decide⟩
  · intro st di h
    simp [locationLabel, h]
  · intro st di h1 h2
    simp [locationLabel, h1, h2]
  · intro st di h1 h2
    simp [locationLabel, h1, h2]

/-- C7 witness: the label at a truthy district. -/
theorem locationLabel_spec_witness :
    locationLabel (some "Odisha") (some "Puri") = "Puri, Odisha" :=
  locationLabel_spec.1 (some "Odisha") (some "Puri") rfl

/-- C10 (counterexample): the filter discards entries consisting entirely
of digits, but an entry with surrounding whitespace such as `" 123 "` is
neither falsy nor all-digits, survives the filter, and normalizes to the
purely numeric `"123"` — so `states[]` can contain a purely numeric
string, contrary to the claim's conclusion. -/
theorem states_filter_padded_numeric_cex :
    fetchStatesResult [" 123 "] = ["123"] ∧
    ("123").data.all Char.isDigit = true := by
  decide

/-- C10 (amended): every received entry that is empty (falsy) or consists
entirely of decimal digits is discarded before normalization — removing
such entries from the raw list never changes `states[]` — but entries
that merely *normalize* to empty or purely numeric strings (e.g.
whitespace-padded digits) are kept, so elements of `states[]` can still
be empty or purely numeric. -/
theorem states_filter_discards_falsy_numeric :
    (∀ s : String, keepState s = false ↔
        (s = "" ∨ s.data.all Char.isDigit = true)) ∧
    (∀ raw : List String,
        fetchStatesResult (raw.filter keepState) = fetchStatesResult raw) ∧
    fetchStatesResult [" 123 "] = ["123"] ∧
    fetchStatesResult ["   "] = [""] := by
  refine ⟨?_, ?_, by decide, by decide⟩
  · intro s
    by_cases h1 : s = "" <;> by_cases h2 : s.data.all Char.isDigit <;>
      simp [keepState, h1, h2]
  · intro raw
    unfold fetchStatesResult
    rw [List.filter_filter]
    simp

/-- C10 witness: the filter verdicts at concrete entries. -/
theorem states_filter_discards_falsy_numeric_witness :
    keepState "123" = false ∧ keepState "" = false ∧ keepState "Kerala" = true :=
  ⟨(states_filter_discards_falsy_numeric.1 "123").mpr (Or.inr (by decide)),
   (states_filter_discards_falsy_numeric.1 "").mpr (Or.inl rfl),
   by decide⟩

end AadhaarPulse
